import Mathlib

/-!
Verification of the Job Lifecycle & Status Reconciliation subsystem of the
novareel repository (a thin orchestration layer around an asynchronous
text-to-video generation API).

The embedding follows the Python source closely:

* `src/src/models/video.py` — `VideoConfig`, `VideoJob`, `VideoJob.from_dict`;
* `src/src/services/aws_service.py` — `AWSService.get_job_status`,
  `AWSService.download_video`;
* `src/src/services/video_service.py` — `VideoService.create_video`,
  `VideoService.get_job_status` (refresh), `VideoService.get_jobs`,
  `VideoService._load_existing_jobs`, `VideoService._save_job`.

Modelling conventions:

* `datetime` values are modelled as `Nat` timestamps (seconds); ISO-8601
  parsing is modelled as already performed, so the stored representation of a
  timestamp is `Option Nat`.
* Python's `random.randint` draw is passed in explicitly as an argument
  (`draw`), so the functions stay deterministic.
* A boto3 call that may raise `ClientError` is modelled as `Except` with the
  error message; the source's substring test
  `'ResourceNotFoundException' in str(e)` is modelled by the constructor
  `ClientErr.resourceNotFound` versus `ClientErr.other msg`.
* Job statuses are the literal strings of the source:
  `"Pending"`, `"InProgress"`, `"Completed"`, `"Failed"`.
-/

namespace NovaReel

/-- Configuration for video generation (dataclass `VideoConfig`,
`src/src/models/video.py`). `seed` is stored after `__post_init__` has run,
so it is always present here. -/
structure VideoConfig where
  duration : Int
  fps : Int
  resolution : String
  seed : Int
deriving Repr, DecidableEq

/-- Construction of `VideoConfig(duration, fps, resolution, seed)` followed by
`__post_init__`: when `seed` is `None`, it is replaced by the pseudo-random
draw `random.randint(0, 2147483646)`, which we pass in as `draw`. Note that
`__post_init__` performs NO validation of `duration`, `fps` or `resolution`;
construction always succeeds. -/
def VideoConfig.make (duration fps : Int) (resolution : String)
    (seed : Option Int) (draw : Int) : VideoConfig :=
  { duration := duration, fps := fps, resolution := resolution
  , seed := seed.getD draw }

/-- A video generation job (dataclass `VideoJob`, `src/src/models/video.py`).
`created_at` is a `Nat` timestamp. -/
structure VideoJob where
  prompt : String
  config : VideoConfig
  invocation_arn : Option String
  status : String
  created_at : Nat
  completed_at : Option Nat
  output_path : Option String
  error_message : Option String
deriving Repr, DecidableEq

/-- Construction `VideoJob(prompt=prompt, config=config)` relying on the
dataclass field defaults. Python evaluates a dataclass default expression
ONCE, when the class statement executes; the default
`created_at: datetime = datetime.now()` therefore captures the time the
module was imported (`tClassDef`), NOT the current time of the construction
(`tNow`, which this semantics receives and, faithfully to Python, ignores). -/
def VideoJob.mkDefault (tClassDef _tNow : Nat) (prompt : String)
    (config : VideoConfig) : VideoJob :=
  { prompt := prompt
  , config := config
  , invocation_arn := none
  , status := "Pending"
  , created_at := tClassDef
  , completed_at := none
  , output_path := none
  , error_message := none }

/-- The `config` sub-dictionary of a persisted job file, covering both the
modern keys (`duration`, `resolution`) and the legacy keys
(`durationSeconds`, `dimension`). `fps` is accessed unconditionally by
`from_dict` (`config_data['fps']`), so it is modelled as always present. -/
structure ConfigDict where
  durationSeconds : Option Int
  dimension : Option String
  duration : Option Int
  resolution : Option String
  fps : Int
  seed : Option Int
deriving Repr, DecidableEq

/-- A persisted job dictionary as read back from storage.
`response_invocationArn` is `some a` exactly when the dictionary has a
`response` entry containing an `invocationArn` key (the legacy envelope);
`invocation_arn` is the flat modern key. `prompt` is accessed
unconditionally (`data['prompt']`), so it is modelled as present; a JSON
unit missing it is folded into the "fails to parse" case of the loader. -/
structure JobDict where
  prompt : String
  config : ConfigDict
  response_invocationArn : Option String
  invocation_arn : Option String
  status : Option String
  created_at : Option Nat
  completed_at : Option Nat
  output_path : Option String
  error_message : Option String
deriving Repr, DecidableEq

/-- `VideoJob.from_dict` (`src/src/models/video.py:62-96`). Key lookups that
the source performs with `data[...]` (raising `KeyError` on absence) are
modelled by returning `none`; the loader catches any such failure. `now`
models `datetime.now()` used when `created_at` is absent, and `draw` the
random seed draw inside `VideoConfig.__post_init__` when `seed` is absent. -/
def VideoJob.from_dict (now : Nat) (draw : Int) (data : JobDict) :
    Option VideoJob :=
  let invocation_arn :=
    match data.response_invocationArn with
    | some a => some a
    | none => data.invocation_arn
  let dr : Option (Int × String) :=
    match data.config.durationSeconds with
    | some d => data.config.dimension.map (fun r => (d, r))
    | none =>
      match data.config.duration, data.config.resolution with
      | some d, some r => some (d, r)
      | _, _ => none
  match dr with
  | none => none
  | some (d, r) =>
    some
      { prompt := data.prompt
      , config := VideoConfig.make d data.config.fps r data.config.seed draw
      , invocation_arn := invocation_arn
      , status := data.status.getD "InProgress"
      , created_at := data.created_at.getD now
      , completed_at := data.completed_at
      , output_path := data.output_path
      , error_message := data.error_message }

/-- One entry of `asyncInvokeSummaries` as returned by
`bedrock_runtime.list_async_invokes` (`src/src/services/aws_service.py`). -/
structure AsyncInvokeSummary where
  invocationArn : String
  failureReason : Option String
deriving Repr, DecidableEq

/-- A boto3 `ClientError`, distinguished the way the source distinguishes it:
`resourceNotFound` models an error whose `str(e)` contains
`'ResourceNotFoundException'`; `other msg` models every other `ClientError`
with message `msg`. -/
inductive ClientErr where
  | resourceNotFound
  | other (msg : String)
deriving Repr, DecidableEq

/-- The dictionary shape `AWSService.get_job_status` returns (and that
`bedrock_runtime.get_async_invoke` answers with): a `status` string, an
optional `failureMessage`, and the optional
`outputDataConfig.s3OutputDataConfig.s3Uri` descriptor. -/
structure StatusResult where
  status : String
  failureMessage : Option String
  s3Uri : Option String
deriving Repr, DecidableEq

/-- `AWSService.get_job_status` (`src/src/services/aws_service.py:52-106`).

Arguments model the AWS environment at the moment of the call:
`listCompleted` and `listFailed` are the outcomes of
`list_async_invokes(statusEquals="Completed")` and `(statusEquals="Failed")`
(`.error msg` being a `ClientError`); `getAsyncInvoke` is the behaviour of
`bedrock_runtime.get_async_invoke` per invocation ARN. The function walks the
completed enumeration first, then the failed one, then falls back to the
direct point lookup, mapping a `ResourceNotFoundException` there to a
`Completed` answer; every other `ClientError` escapes to the outer handler,
which wraps it as `VideoGenerationError` (the `.error` result). -/
def AWSService.get_job_status (bucketName : String)
    (listCompleted listFailed : Except String (List AsyncInvokeSummary))
    (getAsyncInvoke : String → Except ClientErr StatusResult)
    (invocation_arn : String) : Except String StatusResult :=
  match listCompleted with
  | .error e => .error ("Error checking job status: " ++ e)
  | .ok completed =>
    if completed.any (fun j => j.invocationArn == invocation_arn) then
      .ok { status := "Completed", failureMessage := none
          , s3Uri := some ("s3://" ++ bucketName) }
    else
      match listFailed with
      | .error e => .error ("Error checking job status: " ++ e)
      | .ok failed =>
        match failed.find? (fun j => j.invocationArn == invocation_arn) with
        | some j =>
          .ok { status := "Failed"
              , failureMessage := some (j.failureReason.getD "Unknown error")
              , s3Uri := none }
        | none =>
          match getAsyncInvoke invocation_arn with
          | .ok info => .ok info
          | .error .resourceNotFound =>
            .ok { status := "Completed", failureMessage := none
                , s3Uri := some ("s3://" ++ bucketName) }
          | .error (.other msg) =>
            .error ("Error checking job status: " ++ msg)

/-- Python `s.split("/")[-1]`: the part of `s` after its last `/` (the whole
string when it contains none), implemented over the character list so that
it evaluates inside the kernel. -/
def lastPathComponent (s : String) : String :=
  String.mk ((s.data.reverse.takeWhile (fun c => c != '/')).reverse)

/-- Python `s.startswith(p)`, over character lists so that it evaluates. -/
def strStartsWith (s p : String) : Bool :=
  p.data.isPrefixOf s.data

/-- Python `s.endswith(p)`, over character lists so that it evaluates. -/
def strEndsWith (s p : String) : Bool :=
  p.data.reverse.isPrefixOf s.data.reverse

/-- One S3 API call performed by `AWSService.download_video`, recorded so
theorems can speak about which transfers and listings happened. -/
inductive S3Call where
  | downloadFile (key : String)
  | listObjects (keyFilter : String)
deriving Repr, DecidableEq

/-- Result of `AWSService.download_video`: the returned value (`some path` or
`None`), the local files existing after the call, and the S3 calls made. -/
structure DownloadOutcome where
  result : Option String
  localFiles : List String
  calls : List S3Call
deriving Repr, DecidableEq

/-- `AWSService.download_video` (`src/src/services/aws_service.py:108-164`).

`s3Objects` is the bucket's key listing (in S3 listing order): a
`download_file` of a key succeeds exactly when the key is present, failing
with `ClientError` otherwise, and `list_objects_v2` with a key filter
returns the present keys starting with it, in order. `localFiles` is the set
of paths existing locally before the call. The invocation id is
`job.invocation_arn.split("/")[-1]`; the local destination is
`{outputDir}/{invocation_id}/output.mp4`. If that local file already exists
it is returned with no S3 traffic; else the deterministic key
`{invocation_id}/output.mp4` is tried; else the listing fallback downloads
the first `.mp4` under the id; else the result is `none`. -/
def AWSService.download_video (outputDir : String)
    (s3Objects localFiles : List String) (invocation_arn : String) :
    DownloadOutcome :=
  let invocation_id := lastPathComponent invocation_arn
  let job_dir := outputDir ++ "/" ++ invocation_id
  let local_file := job_dir ++ "/output.mp4"
  if localFiles.contains local_file then
    { result := some local_file, localFiles := localFiles, calls := [] }
  else
    let s3_key := invocation_id ++ "/output.mp4"
    if s3Objects.contains s3_key then
      { result := some local_file
      , localFiles := localFiles ++ [local_file]
      , calls := [.downloadFile s3_key] }
    else
      let listed := s3Objects.filter (fun k => strStartsWith k invocation_id)
      match listed.find? (fun k => strEndsWith k ".mp4") with
      | some key =>
        { result := some local_file
        , localFiles := localFiles ++ [local_file]
        , calls := [.downloadFile s3_key, .listObjects invocation_id
                   , .downloadFile key] }
      | none =>
        { result := none
        , localFiles := localFiles
        , calls := [.downloadFile s3_key, .listObjects invocation_id] }

/-- One call from `VideoService` into its `AWSService` adapter, recorded so
theorems can state which external interactions a service operation made. -/
inductive AdapterCall where
  | startGeneration (prompt : String) (config : VideoConfig)
  | pollStatus (invocation_arn : Option String)
  | locateArtifact (invocation_arn : Option String)
deriving Repr, DecidableEq

/-- Outcome of `VideoService.get_job_status` (the refresh operation): the job
record after the call (the source mutates it in place), the records passed to
`_save_job` in order, the adapter calls made, and the returned status or the
re-raised `VideoGenerationError` message. -/
structure RefreshOutcome where
  job : VideoJob
  saved : List VideoJob
  calls : List AdapterCall
  result : Except String String
deriving Repr

/-- `VideoService.get_job_status` (`src/src/services/video_service.py:67-101`),
the refresh operation.

`poll` is the outcome of `self.aws.get_job_status(job.invocation_arn)` and
`download` the outcome of `self.aws.download_video(job)` (both may raise
`VideoGenerationError`, the `.error` case); `now` is `datetime.now()`.
The source fetches the current status unconditionally; if it differs from the
stored one it mutates the record (on `Completed`: sets `completed_at` and
stores the download result, which may be `None`; on `Failed`: stores
`failureMessage` or `'Unknown error'`) and saves it. A `VideoGenerationError`
anywhere in the `try` block falls to the handler, which sets the status to
`Failed`, stores `str(e)` as the error message, saves, and re-raises. In the
branch where the poll reported `Completed` and the download then raised, the
record has already been given `status = 'Completed'` and a `completed_at`
before the handler overwrites the status with `Failed`. -/
def VideoService.get_job_status (poll : Except String StatusResult)
    (download : Except String (Option String)) (now : Nat) (job : VideoJob) :
    RefreshOutcome :=
  match poll with
  | .error e =>
    let j := { job with status := "Failed", error_message := some e }
    { job := j, saved := [j], calls := [.pollStatus job.invocation_arn]
    , result := .error e }
  | .ok info =>
    let current_status := info.status
    if current_status = job.status then
      { job := job, saved := [], calls := [.pollStatus job.invocation_arn]
      , result := .ok current_status }
    else if current_status = "Completed" then
      match download with
      | .ok path =>
        let j := { job with
                     status := current_status
                     completed_at := some now
                     output_path := path }
        { job := j, saved := [j]
        , calls := [.pollStatus job.invocation_arn
                   , .locateArtifact job.invocation_arn]
        , result := .ok current_status }
      | .error e =>
        let j := { job with
                     status := "Failed"
                     completed_at := some now
                     error_message := some e }
        { job := j, saved := [j]
        , calls := [.pollStatus job.invocation_arn
                   , .locateArtifact job.invocation_arn]
        , result := .error e }
    else if current_status = "Failed" then
      let j := { job with
                   status := current_status
                   error_message := some (info.failureMessage.getD "Unknown error") }
      { job := j, saved := [j], calls := [.pollStatus job.invocation_arn]
      , result := .ok current_status }
    else
      let j := { job with status := current_status }
      { job := j, saved := [j], calls := [.pollStatus job.invocation_arn]
      , result := .ok current_status }

/-- In-memory and on-disk state of a `VideoService`: the `_jobs` list and the
persisted job files, each addressed by the `created_at`-derived file name
(second resolution, so the `Nat` timestamp itself is the address). -/
structure ServiceState where
  jobs : List VideoJob
  disk : List (Nat × VideoJob)
deriving Repr, DecidableEq

/-- `VideoService._save_job` (`src/src/services/video_service.py:111-121`):
writes the record as `job_{created_at}.json`, overwriting any previous file
of the same name. -/
def VideoService.save_job (disk : List (Nat × VideoJob)) (job : VideoJob) :
    List (Nat × VideoJob) :=
  disk.filter (fun p => p.1 != job.created_at) ++ [(job.created_at, job)]

/-- Outcome of `VideoService.create_video`: the service state after the call,
the returned record or raised error, the record passed to `_save_job` (the
source saves exactly one record on both paths), and the adapter calls. -/
structure CreateOutcome where
  state : ServiceState
  result : Except String VideoJob
  savedRecord : VideoJob
  calls : List AdapterCall
deriving Repr

/-- `VideoService.create_video` (`src/src/services/video_service.py:23-65`).

`submit` is the outcome of `self.aws.start_video_generation(job)`: `.ok arn`
when the response carried `invocationArn = arn`, `.error e` on
`VideoGenerationError`. `draw` is the random seed draw, `tClassDef` the
module-import time captured by the `created_at` dataclass default, and `now`
the (ignored, see `VideoJob.mkDefault`) wall-clock time of the call. The
config and record are built with NO validation of duration, fps, resolution
or prompt, then submission is attempted; on success the record gets the arn
and `InProgress` status, is appended to `_jobs` and saved; on failure it gets
`Failed` status and the error message, is saved but NOT appended, and the
error is re-raised. -/
def VideoService.create_video (st : ServiceState)
    (submit : Except String String) (draw : Int) (tClassDef now : Nat)
    (prompt : String) (duration fps : Int) (resolution : String) :
    CreateOutcome :=
  let config := VideoConfig.make duration fps resolution none draw
  let job := VideoJob.mkDefault tClassDef now prompt config
  match submit with
  | .ok arn =>
    let j := { job with invocation_arn := some arn, status := "InProgress" }
    { state := { jobs := st.jobs ++ [j], disk := VideoService.save_job st.disk j }
    , result := .ok j
    , savedRecord := j
    , calls := [.startGeneration prompt config] }
  | .error e =>
    let j := { job with status := "Failed", error_message := some e }
    { state := { jobs := st.jobs, disk := VideoService.save_job st.disk j }
    , result := .error e
    , savedRecord := j
    , calls := [.startGeneration prompt config] }

/-- `VideoService.get_jobs` (`src/src/services/video_service.py:103-109`):
all jobs sorted by creation time, newest first. -/
def VideoService.get_jobs (st : ServiceState) : List VideoJob :=
  st.jobs.mergeSort (fun a b => decide (b.created_at ≤ a.created_at))

/-- One directory entry of the storage root: the file name and its parse
outcome. `content = none` models a unit whose `json.load` fails (invalid
JSON or a missing required key, both caught by the loader's `except`). -/
structure DirEntry where
  name : String
  content : Option JobDict
deriving Repr, DecidableEq

/-- The storage root as the loader can find it. `missing` is the case
`os.path.exists` returns `False`; `unreadable` is an existing directory
whose `os.listdir` raises `PermissionError` (Python's `os.path.exists`
still answers `True` for it); `readable files` gives the entries in
`os.listdir` order. -/
inductive StorageRoot where
  | missing
  | unreadable
  | readable (files : List DirEntry)
deriving Repr, DecidableEq

/-- `VideoService._load_existing_jobs`
(`src/src/services/video_service.py:123-137`). A missing root returns no
jobs; for a readable root each `job_*.json` entry is parsed independently
(`json.load` then `VideoJob.from_dict`) and failures are logged and skipped.
`os.listdir` of an existing-but-unreadable root raises `PermissionError`,
which no handler in the source catches — the `.error` case. -/
def VideoService.load_existing_jobs (now : Nat) (draw : Int)
    (root : StorageRoot) : Except String (List VideoJob) :=
  match root with
  | .missing => .ok []
  | .unreadable => .error "PermissionError"
  | .readable files =>
    .ok (files.filterMap (fun e =>
      if strStartsWith e.name "job_" && strEndsWith e.name ".json" then
        e.content.bind (VideoJob.from_dict now draw)
      else
        none))

/-! Concrete fixtures shared by the claim theorems below. -/

/-- A valid configuration, inside every configured bound and enumeration. -/
def sampleConfig : VideoConfig :=
  { duration := 6, fps := 24, resolution := "1280x720", seed := 42 }

/-- An in-progress job as produced by a successful submission. -/
def sampleInProgressJob : VideoJob :=
  { prompt := "A sunset over mountains"
  , config := sampleConfig
  , invocation_arn := some "arn:abc123"
  , status := "InProgress"
  , created_at := 100
  , completed_at := none
  , output_path := none
  , error_message := none }

/-- A completed job with its artifact located. -/
def sampleCompletedJob : VideoJob :=
  { sampleInProgressJob with
      status := "Completed"
      completed_at := some 150
      output_path := some "output/abc123/output.mp4" }

/-- C1: the claim says a `StatusCheckError` (`VideoGenerationError`) raised by
the status poll during refresh is re-raised with the record left completely
unchanged. The code re-raises, but first mutates the record: the handler at
`video_service.py:97-101` sets `status = 'Failed'`, stores the error text as
`error_message`, and persists the record. This theorem evaluates the embedded
refresh at the failing input: an `InProgress` record whose poll raises. -/
theorem c1_status_check_error_mutates_record :
    (VideoService.get_job_status
        (.error "Error checking job status: timeout") (.ok none) 200
        sampleInProgressJob).result
      = .error "Error checking job status: timeout" ∧
    (VideoService.get_job_status
        (.error "Error checking job status: timeout") (.ok none) 200
        sampleInProgressJob).job.status = "Failed" ∧
    (VideoService.get_job_status
        (.error "Error checking job status: timeout") (.ok none) 200
        sampleInProgressJob).job.error_message
      = some "Error checking job status: timeout" ∧
    (VideoService.get_job_status
        (.error "Error checking job status: timeout") (.ok none) 200
        sampleInProgressJob).job ≠ sampleInProgressJob ∧
    (VideoService.get_job_status
        (.error "Error checking job status: timeout") (.ok none) 200
        sampleInProgressJob).saved ≠ [] := by
  refine ⟨rfl, rfl, rfl, ?_, ?_⟩
  · intro h
    have hs := congrArg VideoJob.status h
    simp [VideoService.get_job_status, sampleInProgressJob] at hs
  · intro h
    simp [VideoService.get_job_status] at h

/-- C2 counterexample: the claim says refresh on a record already `Completed`
or `Failed` "does not invoke the Generation Client Adapter at all".
`VideoService.get_job_status` has no terminal-status guard: refreshing a
`Completed` record performs the adapter's status poll (here the poll answers
`Completed` again, so nothing is mutated — but the adapter was invoked). -/
theorem c2_terminal_refresh_invokes_adapter :
    (VideoService.get_job_status
        (.ok { status := "Completed", failureMessage := none, s3Uri := none })
        (.ok none) 200 sampleCompletedJob).calls
      = [.pollStatus (some "arn:abc123")] ∧
    (VideoService.get_job_status
        (.ok { status := "Completed", failureMessage := none, s3Uri := none })
        (.ok none) 200 sampleCompletedJob).calls ≠ [] := by
  constructor
  · rfl
  · intro h
    simp [VideoService.get_job_status, sampleCompletedJob,
      sampleInProgressJob] at h

/-- C2 amended: every refresh begins by invoking the adapter's status poll,
for terminal records as well. The record is left unmodified and nothing is
persisted, with the stored status returned, exactly when the poll succeeds
and reports the same status as stored (in particular for a terminal record
whose external status agrees): the third conjunct is the biconditional that
nothing is written back if and only if the polled status agrees, and the
fourth states that in every other case — differing polled status or poll
failure — the (updated) record is persisted. -/
theorem c2_refresh_always_polls_noop_only_when_status_agrees
    (poll : Except String StatusResult)
    (download : Except String (Option String)) (now : Nat) (job : VideoJob) :
    (VideoService.get_job_status poll download now job).calls.head?
      = some (.pollStatus job.invocation_arn) ∧
    (∀ info, poll = .ok info → info.status = job.status →
      VideoService.get_job_status poll download now job
        = { job := job, saved := [], calls := [.pollStatus job.invocation_arn]
          , result := .ok job.status }) ∧
    ((VideoService.get_job_status poll download now job).saved = [] ↔
      ∃ info, poll = .ok info ∧ info.status = job.status) ∧
    ((VideoService.get_job_status poll download now job).saved ≠ [] →
      (VideoService.get_job_status poll download now job).saved
        = [(VideoService.get_job_status poll download now job).job]) := by
  refine ⟨?_, ?_, ?_, ?_⟩
  · unfold VideoService.get_job_status
    cases poll with
    | error e => rfl
    | ok info =>
      dsimp only
      by_cases h1 : info.status = job.status
      · rw [if_pos h1]; rfl
      · rw [if_neg h1]
        by_cases h2 : info.status = "Completed"
        · rw [if_pos h2]
          cases download <;> rfl
        · rw [if_neg h2]
          by_cases h3 : info.status = "Failed"
          · rw [if_pos h3]; rfl
          · rw [if_neg h3]; rfl
  · intro info hp hs
    subst hp
    simp [VideoService.get_job_status, hs]
  · unfold VideoService.get_job_status
    cases poll with
    | error e =>
      dsimp only
      constructor
      · intro h
        exact absurd h (by simp)
      · rintro ⟨info, hinfo, -⟩
        exact Except.noConfusion hinfo
    | ok info =>
      dsimp only
      by_cases h1 : info.status = job.status
      · rw [if_pos h1]
        exact ⟨fun _ => ⟨info, rfl, h1⟩, fun _ => rfl⟩
      · rw [if_neg h1]
        have hno : ¬∃ info', (Except.ok info : Except String StatusResult)
            = Except.ok info' ∧ info'.status = job.status := by
          rintro ⟨info', hi, hs⟩
          rw [Except.ok.injEq] at hi
          exact h1 (hi ▸ hs)
        by_cases h2 : info.status = "Completed"
        · rw [if_pos h2]
          cases download with
          | ok path =>
            dsimp only
            exact ⟨fun h => absurd h (by simp), fun h => absurd h hno⟩
          | error e =>
            dsimp only
            exact ⟨fun h => absurd h (by simp), fun h => absurd h hno⟩
        · rw [if_neg h2]
          by_cases h3 : info.status = "Failed"
          · rw [if_pos h3]
            exact ⟨fun h => absurd h (by simp), fun h => absurd h hno⟩
          · rw [if_neg h3]
            exact ⟨fun h => absurd h (by simp), fun h => absurd h hno⟩
  · unfold VideoService.get_job_status
    cases poll with
    | error e =>
      dsimp only
      intro _
      rfl
    | ok info =>
      dsimp only
      by_cases h1 : info.status = job.status
      · rw [if_pos h1]
        intro h
        exact absurd rfl h
      · rw [if_neg h1]
        by_cases h2 : info.status = "Completed"
        · rw [if_pos h2]
          cases download with
          | ok path =>
            intro _
            rfl
          | error e =>
            intro _
            rfl
        · rw [if_neg h2]
          by_cases h3 : info.status = "Failed"
          · rw [if_pos h3]
            intro _
            rfl
          · rw [if_neg h3]
            intro _
            rfl

/-- C2 witness: the amended theorem applied to a concrete `Completed` record
whose poll reports `Completed` again. -/
theorem c2_refresh_noop_witness :
    VideoService.get_job_status
        (.ok { status := "Completed", failureMessage := none, s3Uri := none })
        (.ok none) 200 sampleCompletedJob
      = { job := sampleCompletedJob, saved := []
        , calls := [.pollStatus sampleCompletedJob.invocation_arn]
        , result := .ok sampleCompletedJob.status } :=
  (c2_refresh_always_polls_noop_only_when_status_agrees
      (.ok { status := "Completed", failureMessage := none, s3Uri := none })
      (.ok none) 200 sampleCompletedJob).2.1
    { status := "Completed", failureMessage := none, s3Uri := none } rfl rfl

/-- C3 counterexample: the claim says construction fails synchronously with
`InvalidConfig` before any external call when duration is out of bounds
(e.g. 0 with bounds [1, 30]), fps is not in {24, 30, 60} (e.g. 15),
resolution is not enumerated (e.g. "640x480"), or the prompt is empty.
Neither `VideoConfig.__post_init__` nor `VideoService.create_video` performs
any validation (no `InvalidConfig` exists in the source): with all four
violations at once, construction succeeds and the external submission call
is still made. -/
theorem c3_out_of_bounds_construction_succeeds :
    (VideoService.create_video ⟨[], []⟩ (.ok "arn:abc123") 42 100 100
        "" 0 15 "640x480").result
      = .ok ((VideoService.create_video ⟨[], []⟩ (.ok "arn:abc123") 42 100 100
        "" 0 15 "640x480").savedRecord) ∧
    (VideoService.create_video ⟨[], []⟩ (.ok "arn:abc123") 42 100 100
        "" 0 15 "640x480").savedRecord.status = "InProgress" ∧
    (VideoService.create_video ⟨[], []⟩ (.ok "arn:abc123") 42 100 100
        "" 0 15 "640x480").savedRecord.config
      = { duration := 0, fps := 15, resolution := "640x480", seed := 42 } ∧
    (VideoService.create_video ⟨[], []⟩ (.ok "arn:abc123") 42 100 100
        "" 0 15 "640x480").calls
      = [.startGeneration ""
          { duration := 0, fps := 15, resolution := "640x480", seed := 42 }] :=
  ⟨rfl, rfl, rfl, rfl⟩

/-- C3 amended: construction never validates. For every input — inside or
outside the configured bounds and enumerations, empty prompt included — the
config and record are built from the given values unchanged and the create
operation proceeds to the external submission call. (The inside-the-bounds
half of the original claim, that construction succeeds, holds; the
outside-the-bounds half fails because no `InvalidConfig` check exists.) -/
theorem c3_construction_never_validates (st : ServiceState)
    (submit : Except String String) (draw : Int) (tClassDef now : Nat)
    (prompt : String) (duration fps : Int) (resolution : String) :
    (VideoService.create_video st submit draw tClassDef now prompt duration
        fps resolution).calls
      = [.startGeneration prompt
          (VideoConfig.make duration fps resolution none draw)] ∧
    (VideoService.create_video st submit draw tClassDef now prompt duration
        fps resolution).savedRecord.prompt = prompt ∧
    (VideoService.create_video st submit draw tClassDef now prompt duration
        fps resolution).savedRecord.config
      = VideoConfig.make duration fps resolution none draw := by
  cases submit <;>
    exact ⟨rfl, rfl, rfl⟩

/-- C9: the claim says the created-at timestamp is assigned at the moment the
record is constructed, so records constructed at different times carry
different timestamps. The dataclass default `created_at: datetime =
datetime.now()` is evaluated once, when the class statement executes: every
record constructed without an explicit `created_at` shares the module-import
timestamp. Here two constructions at distinct times 111 and 222 (class
defined at time 100) both carry 100 — and two `create_video` calls at those
times persist to the same `job_...json` file name. -/
theorem c9_created_at_shared_class_definition_time :
    (VideoJob.mkDefault 100 111 "first prompt" sampleConfig).created_at
      = (VideoJob.mkDefault 100 222 "second prompt" sampleConfig).created_at ∧
    (VideoJob.mkDefault 100 111 "first prompt" sampleConfig).created_at ≠ 111 ∧
    (VideoJob.mkDefault 100 222 "second prompt" sampleConfig).created_at ≠ 222 ∧
    (111 : Nat) ≠ 222 ∧
    (VideoService.create_video ⟨[], []⟩ (.ok "arn1") 1 100 111
        "first prompt" 6 24 "1280x720").savedRecord.created_at
      = (VideoService.create_video ⟨[], []⟩ (.ok "arn2") 2 100 222
        "second prompt" 6 24 "1280x720").savedRecord.created_at := by
  refine ⟨rfl, ?_, ?_, ?_, rfl⟩ <;> decide

/-- C4 counterexample: the claim says the output location is present if and
only if the status is `Completed`. Refreshing an `InProgress` record whose
poll reports `Completed` while `download_video` returns `None` (no artifact
found — the source tolerates this, `aws_service.py:161`) yields a persisted
record with status `Completed` and an absent output location. -/
theorem c4_completed_record_with_absent_output :
    (VideoService.get_job_status
        (.ok { status := "Completed", failureMessage := none
             , s3Uri := some "s3://da-rnd-use1" })
        (.ok none) 200 sampleInProgressJob).job.status = "Completed" ∧
    (VideoService.get_job_status
        (.ok { status := "Completed", failureMessage := none
             , s3Uri := some "s3://da-rnd-use1" })
        (.ok none) 200 sampleInProgressJob).job.output_path = none ∧
    (VideoService.get_job_status
        (.ok { status := "Completed", failureMessage := none
             , s3Uri := some "s3://da-rnd-use1" })
        (.ok none) 200 sampleInProgressJob).saved
      = [(VideoService.get_job_status
          (.ok { status := "Completed", failureMessage := none
               , s3Uri := some "s3://da-rnd-use1" })
          (.ok none) 200 sampleInProgressJob).job] :=
  ⟨rfl, rfl, rfl⟩

/-- Job records reachable through the subsystem's own operations: the record
a `create_video` call persists (on the success and on the failure path), and
the record left by any refresh of a reachable record. -/
inductive ReachableJob : VideoJob → Prop where
  | create (st : ServiceState) (submit : Except String String) (draw : Int)
      (tClassDef now : Nat) (prompt : String) (duration fps : Int)
      (resolution : String) :
      ReachableJob ((VideoService.create_video st submit draw tClassDef now
        prompt duration fps resolution).savedRecord)
  | refresh (poll : Except String StatusResult)
      (download : Except String (Option String)) (now : Nat)
      (job : VideoJob) : ReachableJob job →
      ReachableJob ((VideoService.get_job_status poll download now job).job)

/-- C4 amended: for every record reachable through create and refresh, the
error detail is present whenever the status is `Failed`, and the output
location is present only on a record that completed at some point
(`completed_at` set). The if-and-only-if of the original claim fails: a
`Completed` record's output location may be absent when the artifact cannot
be located (see the counterexample), and neither output location nor error
detail is ever cleared by a later transition. -/
theorem c4_reachable_invariant (job : VideoJob) (h : ReachableJob job) :
    (job.status = "Failed" → job.error_message ≠ none) ∧
    (job.output_path ≠ none → job.completed_at ≠ none) := by
  induction h with
  | create st submit draw tClassDef now prompt duration fps resolution =>
    unfold VideoService.create_video
    cases submit with
    | ok arn =>
      dsimp only [VideoJob.mkDefault]
      exact ⟨fun hs => absurd hs (by decide), fun hp => absurd rfl hp⟩
    | error e =>
      dsimp only [VideoJob.mkDefault]
      exact ⟨fun _ => by simp, fun hp => absurd rfl hp⟩
  | refresh poll download now job hr ih =>
    unfold VideoService.get_job_status
    cases poll with
    | error e =>
      dsimp only
      exact ⟨fun _ => by simp, fun hp => ih.2 hp⟩
    | ok info =>
      dsimp only
      by_cases h1 : info.status = job.status
      · rw [if_pos h1]
        exact ih
      · rw [if_neg h1]
        by_cases h2 : info.status = "Completed"
        · rw [if_pos h2]
          cases download with
          | ok path =>
            dsimp only
            exact ⟨fun hs => absurd (h2.symm.trans hs) (by decide),
                   fun _ => by simp⟩
          | error e =>
            dsimp only
            exact ⟨fun _ => by simp, fun _ => by simp⟩
        · rw [if_neg h2]
          by_cases h3 : info.status = "Failed"
          · rw [if_pos h3]
            exact ⟨fun _ => by simp, fun hp => ih.2 hp⟩
          · rw [if_neg h3]
            exact ⟨fun hs => absurd hs h3, fun hp => ih.2 hp⟩

/-- C4 witness: the invariant applied to the record persisted by a create
call whose submission failed. -/
theorem c4_reachable_invariant_witness :
    ((VideoService.create_video ⟨[], []⟩ (.error "AWS API Error: boom") 42 100
        100 "A sunset over mountains" 6 24 "1280x720").savedRecord.status
        = "Failed" →
      (VideoService.create_video ⟨[], []⟩ (.error "AWS API Error: boom") 42 100
        100 "A sunset over mountains" 6 24 "1280x720").savedRecord.error_message
        ≠ none) ∧
    ((VideoService.create_video ⟨[], []⟩ (.error "AWS API Error: boom") 42 100
        100 "A sunset over mountains" 6 24 "1280x720").savedRecord.output_path
        ≠ none →
      (VideoService.create_video ⟨[], []⟩ (.error "AWS API Error: boom") 42 100
        100 "A sunset over mountains" 6 24 "1280x720").savedRecord.completed_at
        ≠ none) :=
  c4_reachable_invariant _
    (ReachableJob.create ⟨[], []⟩ (.error "AWS API Error: boom") 42 100 100
      "A sunset over mountains" 6 24 "1280x720")

/-- C5: the status-poll normalization of `AWSService.get_job_status` follows
exactly the claimed order: (a) a match in the completed enumeration reports
`Completed`; (b) otherwise a match in the failed enumeration reports `Failed`
with the provided failure reason or the `"Unknown error"` placeholder;
(c) otherwise the direct point lookup's answer is returned; (d) a not-found
answer from the direct lookup is reported as `Completed`; and (e, f, g) a
`VideoGenerationError` is raised only on genuine transport failure (a
`ClientError` from one of the three calls other than not-found), never
because the identifier is not found. -/
theorem c5_poll_normalization_order (bucketName : String)
    (getAsyncInvoke : String → Except ClientErr StatusResult)
    (invocation_arn : String) (cs fs : List AsyncInvokeSummary) :
    ((cs.any fun j => j.invocationArn == invocation_arn) = true →
      AWSService.get_job_status bucketName (.ok cs) (.ok fs) getAsyncInvoke
          invocation_arn
        = .ok { status := "Completed", failureMessage := none
              , s3Uri := some ("s3://" ++ bucketName) }) ∧
    ((cs.any fun j => j.invocationArn == invocation_arn) = false →
      ∀ jf, (fs.find? fun j => j.invocationArn == invocation_arn) = some jf →
        AWSService.get_job_status bucketName (.ok cs) (.ok fs) getAsyncInvoke
            invocation_arn
          = .ok { status := "Failed"
                , failureMessage := some (jf.failureReason.getD "Unknown error")
                , s3Uri := none }) ∧
    ((cs.any fun j => j.invocationArn == invocation_arn) = false →
      (fs.find? fun j => j.invocationArn == invocation_arn) = none →
      ∀ info, getAsyncInvoke invocation_arn = .ok info →
        AWSService.get_job_status bucketName (.ok cs) (.ok fs) getAsyncInvoke
            invocation_arn
          = .ok info) ∧
    ((cs.any fun j => j.invocationArn == invocation_arn) = false →
      (fs.find? fun j => j.invocationArn == invocation_arn) = none →
      getAsyncInvoke invocation_arn = .error .resourceNotFound →
      AWSService.get_job_status bucketName (.ok cs) (.ok fs) getAsyncInvoke
          invocation_arn
        = .ok { status := "Completed", failureMessage := none
              , s3Uri := some ("s3://" ++ bucketName) }) ∧
    (∀ e, AWSService.get_job_status bucketName (.ok cs) (.ok fs) getAsyncInvoke
          invocation_arn = .error e →
      ∃ msg, getAsyncInvoke invocation_arn = .error (.other msg) ∧
        e = "Error checking job status: " ++ msg ∧
        (cs.any fun j => j.invocationArn == invocation_arn) = false ∧
        (fs.find? fun j => j.invocationArn == invocation_arn) = none) ∧
    (∀ e listFailed, AWSService.get_job_status bucketName (.error e) listFailed
        getAsyncInvoke invocation_arn
      = .error ("Error checking job status: " ++ e)) ∧
    ((cs.any fun j => j.invocationArn == invocation_arn) = false →
      ∀ e, AWSService.get_job_status bucketName (.ok cs) (.error e)
          getAsyncInvoke invocation_arn
        = .error ("Error checking job status: " ++ e)) := by
  refine ⟨?_, ?_, ?_, ?_, ?_, ?_, ?_⟩
  · intro h
    simp [AWSService.get_job_status, h]
  · intro h jf hf
    simp [AWSService.get_job_status, h, hf]
  · intro h hf info hg
    simp [AWSService.get_job_status, h, hf, hg]
  · intro h hf hg
    simp [AWSService.get_job_status, h, hf, hg]
  · intro e he
    unfold AWSService.get_job_status at he
    dsimp only at he
    by_cases h1 : (cs.any fun j => j.invocationArn == invocation_arn) = true
    · rw [if_pos h1] at he
      exact absurd he (by simp)
    · rw [if_neg h1] at he
      have h1f : (cs.any fun j => j.invocationArn == invocation_arn) = false := by
        simpa using h1
      cases hf : (fs.find? fun j => j.invocationArn == invocation_arn) with
      | some jf =>
        rw [hf] at he
        exact absurd he (by simp)
      | none =>
        rw [hf] at he
        cases hg : getAsyncInvoke invocation_arn with
        | ok info =>
          rw [hg] at he
          exact absurd he (by simp)
        | error ce =>
          cases ce with
          | resourceNotFound =>
            rw [hg] at he
            exact absurd he (by simp)
          | other msg =>
            rw [hg] at he
            refine ⟨msg, rfl, ?_, h1f, rfl⟩
            exact (Except.error.injEq _ _ ▸ he).symm
  · intro e listFailed
    rfl
  · intro h e
    simp [AWSService.get_job_status, h]

/-- C5 witness: the normalization applied with the identifier present in the
completed enumeration. -/
theorem c5_poll_normalization_witness :
    AWSService.get_job_status "da-rnd-use1"
        (.ok [{ invocationArn := "arn:abc123", failureReason := none }])
        (.ok []) (fun _ => .error .resourceNotFound) "arn:abc123"
      = .ok { status := "Completed", failureMessage := none
            , s3Uri := some ("s3://" ++ "da-rnd-use1") } :=
  (c5_poll_normalization_order "da-rnd-use1" (fun _ => .error .resourceNotFound)
    "arn:abc123" [{ invocationArn := "arn:abc123", failureReason := none }]
    []).1 (by decide)

/-- C6 counterexample: the claim says the nested identifier path
(`response.invocationArn`) is used exactly when the flat field
(`invocation_arn`) is absent. `VideoJob.from_dict` checks the nested
envelope FIRST (`video.py:66-69`): on a dictionary carrying both, the nested
value wins even though the flat field is present. -/
theorem c6_nested_arn_wins_over_flat :
    (VideoJob.from_dict 0 0
        { prompt := "p"
        , config := { durationSeconds := none, dimension := none
                    , duration := some 6, resolution := some "1280x720"
                    , fps := 24, seed := some 42 }
        , response_invocationArn := some "nested-arn"
        , invocation_arn := some "flat-arn"
        , status := some "InProgress", created_at := some 100
        , completed_at := none, output_path := none
        , error_message := none }).map (fun j => j.invocation_arn)
      = some (some "nested-arn") ∧
    some "nested-arn" ≠ some "flat-arn" := by
  exact ⟨rfl, by simp⟩

/-- C6 amended: deserializing the legacy scheme (`durationSeconds`,
`dimension`, identifier only under `response.invocationArn`) and the modern
scheme (`duration`, `resolution`, flat `invocation_arn`) with identical field
values produces equal in-memory records; and the nested identifier path is
used exactly when the NESTED field is present — it takes priority over the
flat field, which is consulted only when the nested one is absent. -/
theorem c6_scheme_equivalence_nested_priority :
    (∀ (p : String) (d : Int) (f : Int) (r : String) (sd : Option Int)
       (arn : String) (st : Option String) (ca cpa : Option Nat)
       (op em : Option String) (now : Nat) (draw : Int),
      VideoJob.from_dict now draw
          { prompt := p
          , config := { durationSeconds := some d, dimension := some r
                      , duration := none, resolution := none
                      , fps := f, seed := sd }
          , response_invocationArn := some arn, invocation_arn := none
          , status := st, created_at := ca, completed_at := cpa
          , output_path := op, error_message := em }
        = VideoJob.from_dict now draw
          { prompt := p
          , config := { durationSeconds := none, dimension := none
                      , duration := some d, resolution := some r
                      , fps := f, seed := sd }
          , response_invocationArn := none, invocation_arn := some arn
          , status := st, created_at := ca, completed_at := cpa
          , output_path := op, error_message := em }) ∧
    (∀ (data : JobDict) (now : Nat) (draw : Int) (j : VideoJob),
      VideoJob.from_dict now draw data = some j →
      j.invocation_arn
        = (match data.response_invocationArn with
           | some a => some a
           | none => data.invocation_arn)) := by
  constructor
  · intro p d f r sd arn st ca cpa op em now draw
    rfl
  · intro data now draw j hj
    unfold VideoJob.from_dict at hj
    dsimp only at hj
    split at hj
    · exact absurd hj (by simp)
    · rw [Option.some.injEq] at hj
      subst hj
      rfl

/-- C6 witness: the amended theorem's priority half applied to a concrete
modern-scheme dictionary (nested field absent), which deserializes to
`sampleInProgressJob`. -/
theorem c6_scheme_equivalence_witness :
    sampleInProgressJob.invocation_arn = some "arn:abc123" :=
  c6_scheme_equivalence_nested_priority.2
    { prompt := "A sunset over mountains"
    , config := { durationSeconds := none, dimension := none
                , duration := some 6, resolution := some "1280x720"
                , fps := 24, seed := some 42 }
    , response_invocationArn := none
    , invocation_arn := some "arn:abc123"
    , status := some "InProgress", created_at := some 100
    , completed_at := none, output_path := none
    , error_message := none } 0 0 sampleInProgressJob rfl

/-- C7: artifact location resolution order of `AWSService.download_video`:
(1) if the deterministic local destination already exists it is returned with
no S3 traffic (no re-transfer); (2) otherwise the deterministic remote key
`{invocation_id}/output.mp4` is attempted; (3) on its failure the objects
under the identifier's key filter are listed and the first `.mp4` is
downloaded; (4) if nothing matches, the result is absent, not an error. -/
theorem c7_download_video_resolution_order (outputDir : String)
    (s3Objects localFiles : List String) (invocation_arn : String) :
    (localFiles.contains (outputDir ++ "/"
          ++ lastPathComponent invocation_arn ++ "/output.mp4") = true →
      AWSService.download_video outputDir s3Objects localFiles invocation_arn
        = { result := some (outputDir ++ "/"
              ++ lastPathComponent invocation_arn ++ "/output.mp4")
          , localFiles := localFiles, calls := [] }) ∧
    (localFiles.contains (outputDir ++ "/"
          ++ lastPathComponent invocation_arn ++ "/output.mp4") = false →
      s3Objects.contains (lastPathComponent invocation_arn
          ++ "/output.mp4") = true →
      AWSService.download_video outputDir s3Objects localFiles invocation_arn
        = { result := some (outputDir ++ "/"
              ++ lastPathComponent invocation_arn ++ "/output.mp4")
          , localFiles := localFiles ++ [outputDir ++ "/"
              ++ lastPathComponent invocation_arn ++ "/output.mp4"]
          , calls := [.downloadFile (lastPathComponent invocation_arn
              ++ "/output.mp4")] }) ∧
    (localFiles.contains (outputDir ++ "/"
          ++ lastPathComponent invocation_arn ++ "/output.mp4") = false →
      s3Objects.contains (lastPathComponent invocation_arn
          ++ "/output.mp4") = false →
      ∀ key, ((s3Objects.filter (fun k =>
            strStartsWith k (lastPathComponent invocation_arn))).find?
            (fun k => strEndsWith k ".mp4")) = some key →
        AWSService.download_video outputDir s3Objects localFiles invocation_arn
          = { result := some (outputDir ++ "/"
                ++ lastPathComponent invocation_arn ++ "/output.mp4")
            , localFiles := localFiles ++ [outputDir ++ "/"
                ++ lastPathComponent invocation_arn ++ "/output.mp4"]
            , calls := [.downloadFile (lastPathComponent invocation_arn
                ++ "/output.mp4")
              , .listObjects (lastPathComponent invocation_arn)
              , .downloadFile key] }) ∧
    (localFiles.contains (outputDir ++ "/"
          ++ lastPathComponent invocation_arn ++ "/output.mp4") = false →
      s3Objects.contains (lastPathComponent invocation_arn
          ++ "/output.mp4") = false →
      ((s3Objects.filter (fun k =>
            strStartsWith k (lastPathComponent invocation_arn))).find?
            (fun k => strEndsWith k ".mp4")) = none →
      AWSService.download_video outputDir s3Objects localFiles invocation_arn
        = { result := none, localFiles := localFiles
          , calls := [.downloadFile (lastPathComponent invocation_arn
              ++ "/output.mp4")
            , .listObjects (lastPathComponent invocation_arn)] }) := by
  refine ⟨?_, ?_, ?_, ?_⟩
  · intro h
    simp only [AWSService.download_video, h]
    rfl
  · intro h hs
    simp only [AWSService.download_video, h, hs]
    rfl
  · intro h hs key hk
    simp only [AWSService.download_video, h, hs, hk]
    rfl
  · intro h hs hk
    simp only [AWSService.download_video, h, hs, hk]
    rfl

/-- C7 witness: the short-circuit branch with a local copy already present,
and the absent case on an empty bucket, both at concrete inputs. -/
theorem c7_download_video_witness :
    AWSService.download_video "output" ["abc123/other.txt"]
        ["output/abc123/output.mp4"] "arn:aws:bedrock/abc123"
      = { result := some ("output" ++ "/"
            ++ lastPathComponent "arn:aws:bedrock/abc123" ++ "/output.mp4")
        , localFiles := ["output/abc123/output.mp4"], calls := [] } :=
  (c7_download_video_resolution_order "output" ["abc123/other.txt"]
    ["output/abc123/output.mp4"] "arn:aws:bedrock/abc123").1 (by decide)

/-- C8 counterexample: the claim says a missing OR UNREADABLE storage root
yields an empty result rather than an error. The source only guards
nonexistence (`os.path.exists`); for a root that exists but cannot be read,
`os.listdir` raises `PermissionError`, which no handler in
`_load_existing_jobs` catches. -/
theorem c8_unreadable_root_raises :
    VideoService.load_existing_jobs 0 0 .unreadable = .error "PermissionError" ∧
    ∀ jobs, VideoService.load_existing_jobs 0 0 .unreadable ≠ .ok jobs :=
  ⟨rfl, fun _ h => Except.noConfusion h⟩

/-- C8 amended: loading parses every persisted unit independently — a unit
that fails to parse (invalid JSON or a dictionary `from_dict` rejects) is
skipped without aborting the scan, and the result contains exactly the
well-formed `job_*.json` units; a MISSING storage root yields an empty
result. (An existing-but-unreadable root, however, raises rather than
yielding an empty result — see the counterexample.) -/
theorem c8_load_skips_bad_units (now : Nat) (draw : Int) :
    (VideoService.load_existing_jobs now draw .missing = .ok []) ∧
    (∀ files : List DirEntry, ∃ jobs : List VideoJob,
      VideoService.load_existing_jobs now draw (.readable files) = .ok jobs ∧
      ∀ j, j ∈ jobs ↔ ∃ e, e ∈ files ∧
        (strStartsWith e.name "job_" && strEndsWith e.name ".json") = true ∧
        e.content.bind (VideoJob.from_dict now draw) = some j) := by
  refine ⟨rfl, ?_⟩
  intro files
  refine ⟨_, rfl, ?_⟩
  intro j
  rw [List.mem_filterMap]
  constructor
  · rintro ⟨e, he, hf⟩
    by_cases hc : (strStartsWith e.name "job_" && strEndsWith e.name ".json") = true
    · rw [if_pos hc] at hf
      exact ⟨e, he, hc, hf⟩
    · rw [if_neg hc] at hf
      exact absurd hf (by simp)
  · rintro ⟨e, he, hc, hf⟩
    exact ⟨e, he, by rw [if_pos hc]; exact hf⟩

/-- C8 witness: a storage root holding one well-formed record and one
invalid-JSON record yields exactly the well-formed one, via the amended
theorem's characterization; the missing-root half is also instantiated. -/
theorem c8_load_skips_bad_units_witness :
    VideoService.load_existing_jobs 0 0 .missing = .ok [] :=
  (c8_load_skips_bad_units 0 0).1

/-- C10: when submission fails during create, the `Failed` record (error
detail set) is persisted to durable storage but NOT added to the in-memory
job collection, so `get_jobs` is unchanged within the process run; a
successfully submitted job is appended to the collection and returned. -/
theorem c10_failed_submission_persisted_not_listed (st : ServiceState)
    (draw : Int) (tClassDef now : Nat) (prompt : String) (duration fps : Int)
    (resolution : String) (e arn : String) :
    ((VideoService.create_video st (.error e) draw tClassDef now prompt
        duration fps resolution).result = .error e ∧
     (VideoService.create_video st (.error e) draw tClassDef now prompt
        duration fps resolution).savedRecord.status = "Failed" ∧
     (VideoService.create_video st (.error e) draw tClassDef now prompt
        duration fps resolution).savedRecord.error_message = some e ∧
     (VideoService.create_video st (.error e) draw tClassDef now prompt
        duration fps resolution).state.jobs = st.jobs ∧
     VideoService.get_jobs (VideoService.create_video st (.error e) draw
        tClassDef now prompt duration fps resolution).state
       = VideoService.get_jobs st ∧
     ((VideoService.create_video st (.error e) draw tClassDef now prompt
          duration fps resolution).savedRecord.created_at,
       (VideoService.create_video st (.error e) draw tClassDef now prompt
          duration fps resolution).savedRecord)
       ∈ (VideoService.create_video st (.error e) draw tClassDef now prompt
          duration fps resolution).state.disk) ∧
    ((VideoService.create_video st (.ok arn) draw tClassDef now prompt
        duration fps resolution).result
       = .ok ((VideoService.create_video st (.ok arn) draw tClassDef now
          prompt duration fps resolution).savedRecord) ∧
     (VideoService.create_video st (.ok arn) draw tClassDef now prompt
        duration fps resolution).savedRecord.status = "InProgress" ∧
     (VideoService.create_video st (.ok arn) draw tClassDef now prompt
        duration fps resolution).state.jobs
       = st.jobs ++ [(VideoService.create_video st (.ok arn) draw tClassDef
          now prompt duration fps resolution).savedRecord]) := by
  refine ⟨⟨rfl, rfl, rfl, rfl, rfl, ?_⟩, rfl, rfl, rfl⟩
  simp [VideoService.create_video, VideoService.save_job]

end NovaReel
